import Mathlib

/-!
Verification development for `pfr_scraper.py`.

The page-to-record extraction engine of the scraper is embedded shallowly:

* a parsed HTML document becomes `Doc` (the metadata `div` text, when the
  `div` with id `meta` exists, plus the list of statistics tables);
* a statistics table becomes `Table` (its id and the `td` cells of its
  `tfoot` row, each carrying its `data-stat` attribute and its text);
* the id-keyed `soup.find('table', ...)` becomes `findTable`, and the
  data-stat-keyed `tfoot.find_all('td', ...)[0]` becomes `lookupCell`;
* Python's `int(...)` / `float(...)` coercions on the strings seen here
  become `parsePyInt` / `parsePyFloat` (`none` models a raised
  `ValueError`);
* exceptions propagating out of `parse_player_stats_page` become
  `Except.error`.

The repeated "find cell, coerce, else keep the initialized 0" blocks of the
source are embedded once as `extractField`, applied to per-category
`FieldSpec` lists that list, in source order, exactly the `data-stat` keys,
output column names and coercion types of the source's blocks.
-/

/-- One `td` cell of a table footer: its `data-stat` attribute and text. -/
structure Cell where
  stat : String
  text : String
deriving DecidableEq

/-- One statistics table: its element id and its `tfoot` cells in order. -/
structure Table where
  id : String
  tfoot : List Cell
deriving DecidableEq

/-- A parsed player page: the text of the `div` with id `meta` (`none` when
that `div` is absent, in which case `.text` in the source raises), and the
statistics tables of the page. -/
structure Doc where
  meta : Option String
  tables : List Table
deriving DecidableEq

/-- Model of the id-keyed `soup.find('table', ...)`: first table with the
given id. -/
def findTable (d : Doc) (i : String) : Option Table :=
  d.tables.find? (fun t => t.id == i)

/-- Model of `table.find('tfoot').find_all('td', ...)` keyed by a data-stat
value, followed by `[0]`: the first footer cell tagged with the key. -/
def lookupCell (t : Table) (k : String) : Option Cell :=
  (t.tfoot.filter (fun c => c.stat == k)).head?

/-- Leading and trailing whitespace removed, as Python coercions do. -/
def stripWs (l : List Char) : List Char :=
  ((l.dropWhile Char.isWhitespace).reverse.dropWhile Char.isWhitespace).reverse

/-- Value of a run of decimal digits. -/
def digitsVal (l : List Char) : Nat :=
  l.foldl (fun n c => n * 10 + (c.toNat - 48)) 0

/-- Optional leading sign split off the stripped characters. -/
def splitSign (cs : List Char) : Int × List Char :=
  match cs with
  | '-' :: rest => (-1, rest)
  | '+' :: rest => (1, rest)
  | _ => (1, cs)

/-- Model of Python `int(s)` on the cell strings this scraper meets:
surrounding whitespace stripped, an optional sign, then one or more ASCII
digits; anything else raises `ValueError`, modelled as `none`. -/
def parsePyInt (s : String) : Option Int :=
  let p := splitSign (stripWs s.data)
  if p.2.isEmpty then none
  else if p.2.all Char.isDigit then some (p.1 * (digitsVal p.2 : Int))
  else none

/-- Characters split at the first-level occurrences of a dot. -/
def splitDot : List Char → List (List Char)
  | [] => [[]]
  | c :: rest =>
      if c = '.' then [] :: splitDot rest
      else
        match splitDot rest with
        | [] => [[c]]
        | w :: ws => (c :: w) :: ws

/-- Model of Python `float(s)` on the cell strings this scraper meets:
surrounding whitespace stripped, an optional sign, then a plain decimal
numeral of the shapes digits, digits.digits, digits. or .digits; anything
else (including the empty string) raises `ValueError`, modelled as
`none`. -/
def parsePyFloat (s : String) : Option ℚ :=
  let p := splitSign (stripWs s.data)
  match splitDot p.2 with
  | [w] =>
      if !w.isEmpty && w.all Char.isDigit then
        some ((p.1 : ℚ) * (digitsVal w : ℚ))
      else
        none
  | [w, f] =>
      if (!w.isEmpty || !f.isEmpty) && w.all Char.isDigit && f.all Char.isDigit then
        some ((p.1 : ℚ) * ((digitsVal w : ℚ) + (digitsVal f : ℚ) / (10 ^ f.length)))
      else
        none
  | _ => none

/-- A typed value of the output record.  The source stores Python ints,
floats, strings, or `None` in the `player_stats` dict. -/
inductive Value where
  | vInt (n : Int)
  | vDec (q : ℚ)
  | vStr (s : String)
  | vNone
deriving DecidableEq

/-- Declared coercion type of a field: `int(...)`, `float(...)`, or the
pass-through text of `get_text()`. -/
inductive FTy where
  | tInt
  | tDec
  | tStr
deriving DecidableEq

/-- Coerce a cell's text as the source does for the given type. -/
def coerceCell (ty : FTy) (s : String) : Except String Value :=
  match ty with
  | .tInt =>
      match parsePyInt s with
      | some n => .ok (.vInt n)
      | none => .error ("ValueError: int could not parse " ++ s)
  | .tDec =>
      match parsePyFloat s with
      | some q => .ok (.vDec q)
      | none => .error ("ValueError: float could not parse " ++ s)
  | .tStr => .ok (.vStr s)

/-- Declared contract of one output column: the `data-stat` key looked up in
the table footer, the output column name, and the coercion type. -/
structure FieldSpec where
  stat : String
  col : String
  ty : FTy
deriving DecidableEq

/-- One source block of the form "find the data-stat cell in the footer; if
the result list is nonempty, coerce the first cell's text, otherwise keep
the initialized value": when the cell is absent the initialized default `0`
(a Python int) is kept; when present its text is coerced, and a coercion
failure propagates. -/
def extractField (t : Table) (f : FieldSpec) : Except String Value :=
  match lookupCell t f.stat with
  | none => .ok (.vInt 0)
  | some c => coerceCell f.ty c.text

/-- Apply the blocks of one category table in source order, pairing each
output column name with its value. -/
def catFields (t : Table) : List FieldSpec → Except String (List (String × Value))
  | [] => .ok []
  | f :: fs => do
      let v ← extractField t f
      let rest ← catFields t fs
      pure ((f.col, v) :: rest)

/-- One category extraction: when the table is absent every column keeps its
initialized default `0`; when present the blocks run in order. -/
def catStats (ot : Option Table) (fs : List FieldSpec) : Except String (List (String × Value)) :=
  match ot with
  | none => .ok (fs.map (fun f => (f.col, Value.vInt 0)))
  | some t => catFields t fs

/-- Model of `int(cells[0].get_text())` for a data-stat key, default 0 when
the cell is absent (source pattern for the per-table games counters). -/
def intStat (t : Table) (k : String) : Except String Int :=
  match lookupCell t k with
  | none => .ok 0
  | some c =>
      match parsePyInt c.text with
      | some n => .ok n
      | none => .error ("ValueError: int could not parse " ++ c.text)

/-- The `gs` blocks of the two games-played tables (source lines 156-161 and
173-178): an absent cell or an empty text keeps the default 0; any other
text goes through `int(...)`. -/
def gsStat (t : Table) : Except String Int :=
  match lookupCell t "gs" with
  | none => .ok 0
  | some c =>
      if c.text = "" then .ok 0
      else
        match parsePyInt c.text with
        | some n => .ok n
        | none => .error ("ValueError: int could not parse " ++ c.text)

/-- Games / games-started pair of a `games_played` style table (keys `g` and
`gs`); an absent table contributes the defaults `(0, 0)`. -/
def gamesPlayedCat (ot : Option Table) : Except String (Int × Int) :=
  match ot with
  | none => .ok (0, 0)
  | some t => do
      let g ← intStat t "g"
      let gs ← gsStat t
      pure (g, gs)

/-- Games / games-started pair of a statistics category table (keys `games`
and `games_started`, both through plain `int(...)`); an absent table
contributes the defaults `(0, 0)`. -/
def catGames (ot : Option Table) : Except String (Int × Int) :=
  match ot with
  | none => .ok (0, 0)
  | some t => do
      let g ← intStat t "games"
      let gs ← intStat t "games_started"
      pure (g, gs)

/-- Python `max([a, b, c, d, e])`. -/
def maxList5 (a b c d e : Int) : Int :=
  max (max (max (max a b) c) d) e

/-- Model of the whitespace normalization `re.sub` applied to the metadata
text: collapse every whitespace run to one space. -/
def normWs (s : String) : String :=
  ⟨(s.data.foldl
      (fun (acc : List Char × Bool) c =>
        if c.isWhitespace then
          (if acc.2 then acc.1 else ' ' :: acc.1, true)
        else
          (c :: acc.1, false))
      ([], false)).1.reverse⟩

/-- Attempt to match the regex `(\d+-\d+), (\d+lb)` at the start of the
character list, returning the two groups. -/
def matchHWAt (cs : List Char) : Option (String × String) :=
  let d1 := cs.takeWhile Char.isDigit
  let r1 := cs.dropWhile Char.isDigit
  if d1.isEmpty then none else
  match r1 with
  | '-' :: r2 =>
      let d2 := r2.takeWhile Char.isDigit
      let r3 := r2.dropWhile Char.isDigit
      if d2.isEmpty then none else
      match r3 with
      | ',' :: ' ' :: r4 =>
          let d3 := r4.takeWhile Char.isDigit
          let r5 := r4.dropWhile Char.isDigit
          if d3.isEmpty then none else
          match r5 with
          | 'l' :: 'b' :: _ => some (⟨d1 ++ '-' :: d2⟩, ⟨d3 ++ ['l', 'b']⟩)
          | _ => none
      | _ => none
  | _ => none

/-- Leftmost match of the pattern, as `re.search` finds it. -/
def searchHW : List Char → Option (String × String)
  | [] => none
  | c :: rest =>
      match matchHWAt (c :: rest) with
      | some r => some r
      | none => searchHW rest

/-- Model of the `re.search` for the height-and-weight pattern, keeping the
two groups. -/
def findHeightWeight (s : String) : Option (String × String) :=
  searchHW s.data

/-- The `height` entry of the record: group 1 when the pattern matched,
Python `None` otherwise. -/
def heightValue (hw : Option (String × String)) : Value :=
  match hw with
  | none => .vNone
  | some p => .vStr p.1

/-- The `weight` entry of the record: group 2 when the pattern matched,
Python `None` otherwise. -/
def weightValue (hw : Option (String × String)) : Value :=
  match hw with
  | none => .vNone
  | some p => .vStr p.2

/-- Model of taking `.text` on the `soup.find` result for the `div` with id
`meta`: raises when the `div` is absent (`find` returns `None` and `.text`
raises `AttributeError`). -/
def getMeta (d : Doc) : Except String String :=
  match d.meta with
  | none => .error "AttributeError: NoneType object has no text"
  | some m => .ok m

/-- The passing-table blocks after the two games counters, in source order
(lines 218-316 / 356-454); `suf` is `"_reg"` or `"_post"`. -/
def passingSpecs (suf : String) : List FieldSpec :=
  [⟨"qb_rec", "qb_record" ++ suf, .tStr⟩,
   ⟨"pass_cmp", "pass_cmp" ++ suf, .tInt⟩,
   ⟨"pass_att", "pass_att" ++ suf, .tInt⟩,
   ⟨"pass_cmp_pct", "pass_cmp_pct" ++ suf, .tDec⟩,
   ⟨"pass_yds", "pass_yds" ++ suf, .tInt⟩,
   ⟨"pass_td", "pass_td" ++ suf, .tInt⟩,
   ⟨"pass_td_pct", "pass_td_pct" ++ suf, .tDec⟩,
   ⟨"pass_int", "pass_int" ++ suf, .tInt⟩,
   ⟨"pass_int_pct", "pass_int_pct" ++ suf, .tDec⟩,
   ⟨"pass_first_down", "pass_first_down" ++ suf, .tInt⟩,
   ⟨"pass_success", "pass_success" ++ suf, .tDec⟩,
   ⟨"pass_long", "pass_long" ++ suf, .tInt⟩,
   ⟨"pass_yds_per_att", "pass_yds_per_att" ++ suf, .tDec⟩,
   ⟨"pass_adj_yds_per_att", "pass_adj_yds_per_att" ++ suf, .tDec⟩,
   ⟨"pass_yds_per_cmp", "pass_yds_per_cmp" ++ suf, .tDec⟩,
   ⟨"pass_yds_per_g", "pass_yds_per_g" ++ suf, .tDec⟩,
   ⟨"pass_rating", "pass_rating" ++ suf, .tDec⟩,
   ⟨"pass_sacked", "pass_sacked" ++ suf, .tInt⟩,
   ⟨"pass_sacked_yds", "pass_sacked_yds" ++ suf, .tInt⟩,
   ⟨"pass_sacked_pct", "pass_sacked_pct" ++ suf, .tDec⟩,
   ⟨"pass_net_yds_per_att", "pass_net_yds_per_att" ++ suf, .tDec⟩,
   ⟨"pass_adj_net_yds_per_att", "pass_adj_net_yds_per_att" ++ suf, .tDec⟩,
   ⟨"comebacks", "comebacks" ++ suf, .tInt⟩,
   ⟨"gwd", "gwd" ++ suf, .tInt⟩]

/-- The rushing-and-receiving blocks after the two games counters (source
lines 496-590 / 632-726). -/
def rushRecSpecs (suf : String) : List FieldSpec :=
  [⟨"rush_att", "rush_att" ++ suf, .tInt⟩,
   ⟨"rush_yds", "rush_yds" ++ suf, .tInt⟩,
   ⟨"rush_td", "rush_td" ++ suf, .tInt⟩,
   ⟨"rush_first_down", "rush_first_down" ++ suf, .tInt⟩,
   ⟨"rush_success", "rush_success" ++ suf, .tDec⟩,
   ⟨"rush_long", "rush_long" ++ suf, .tInt⟩,
   ⟨"rush_yds_per_att", "rush_yds_per_att" ++ suf, .tDec⟩,
   ⟨"rush_yds_per_g", "rush_yds_per_g" ++ suf, .tDec⟩,
   ⟨"rush_att_per_g", "rush_att_per_g" ++ suf, .tDec⟩,
   ⟨"targets", "targets" ++ suf, .tInt⟩,
   ⟨"rec", "rec" ++ suf, .tInt⟩,
   ⟨"rec_yds", "rec_yds" ++ suf, .tInt⟩,
   ⟨"rec_yds_per_rec", "rec_yds_per_rec" ++ suf, .tDec⟩,
   ⟨"rec_td", "rec_td" ++ suf, .tInt⟩,
   ⟨"rec_first_down", "rec_first_down" ++ suf, .tInt⟩,
   ⟨"rec_success", "rec_success" ++ suf, .tDec⟩,
   ⟨"rec_long", "rec_long" ++ suf, .tInt⟩,
   ⟨"rec_per_g", "rec_per_g" ++ suf, .tDec⟩,
   ⟨"rec_yds_per_g", "rec_yds_per_g" ++ suf, .tDec⟩,
   ⟨"catch_pct", "catch_pct" ++ suf, .tDec⟩,
   ⟨"rec_yds_per_tgt", "rec_yds_per_tgt" ++ suf, .tDec⟩,
   ⟨"touches", "touches" ++ suf, .tInt⟩,
   ⟨"yds_per_touch", "yds_per_touch" ++ suf, .tDec⟩,
   ⟨"rush_receive_td", "rush_receive_td" ++ suf, .tInt⟩]

/-- The defense blocks after the two games counters (source lines 759-825 /
858-924). -/
def defenseSpecs (suf : String) : List FieldSpec :=
  [⟨"def_int", "def_int" ++ suf, .tInt⟩,
   ⟨"def_int_yds", "def_int_yds" ++ suf, .tInt⟩,
   ⟨"def_int_td", "def_int_td" ++ suf, .tInt⟩,
   ⟨"def_int_long", "def_int_long" ++ suf, .tInt⟩,
   ⟨"pass_defended", "pass_defended" ++ suf, .tInt⟩,
   ⟨"fumbles_forced", "fumbles_forced" ++ suf, .tInt⟩,
   ⟨"fumbles", "fumbles" ++ suf, .tInt⟩,
   ⟨"fumbles_rec", "fumbles_rec" ++ suf, .tInt⟩,
   ⟨"fumbles_rec_yds", "fumbles_rec_yds" ++ suf, .tInt⟩,
   ⟨"fumbles_rec_td", "fumbles_rec_td" ++ suf, .tInt⟩,
   ⟨"sacks", "sacks" ++ suf, .tDec⟩,
   ⟨"tackles_combined", "tackles_combined" ++ suf, .tInt⟩,
   ⟨"tackles_solo", "tackles_solo" ++ suf, .tInt⟩,
   ⟨"tackles_assists", "tackles_assists" ++ suf, .tInt⟩,
   ⟨"tackles_loss", "tackles_loss" ++ suf, .tInt⟩,
   ⟨"qb_hits", "qb_hits" ++ suf, .tInt⟩,
   ⟨"safety_md", "safety_md" ++ suf, .tInt⟩]

/-- The returns blocks after the two games counters (source lines 950-988 /
1014-1052). -/
def returnsSpecs (suf : String) : List FieldSpec :=
  [⟨"punt_ret", "punt_ret" ++ suf, .tInt⟩,
   ⟨"punt_ret_yds", "punt_ret_yds" ++ suf, .tInt⟩,
   ⟨"punt_ret_td", "punt_ret_td" ++ suf, .tInt⟩,
   ⟨"punt_ret_long", "punt_ret_long" ++ suf, .tInt⟩,
   ⟨"punt_ret_yds_per_ret", "punt_ret_yds_per_ret" ++ suf, .tDec⟩,
   ⟨"kick_ret", "kick_ret" ++ suf, .tInt⟩,
   ⟨"kick_ret_yds", "kick_ret_yds" ++ suf, .tInt⟩,
   ⟨"kick_ret_td", "kick_ret_td" ++ suf, .tInt⟩,
   ⟨"kick_ret_long", "kick_ret_long" ++ suf, .tInt⟩,
   ⟨"kick_ret_yds_per_ret", "kick_ret_yds_per_ret" ++ suf, .tDec⟩]

/-- Regular-season rushing-and-receiving table (source lines 483-485): the
primary id `rushing_and_receiving`, then the alternate id
`receiving_and_rushing` when the primary is absent. -/
def rrRegTable (d : Doc) : Option Table :=
  match findTable d "rushing_and_receiving" with
  | some t => some t
  | none => findTable d "receiving_and_rushing"

/-- Postseason rushing-and-receiving table (source lines 619-621).  The
source's fallback condition tests the regular-season variable
`rushing_and_receiving_reg`, not the postseason lookup it just made: the
alternate id `receiving_and_rushing_post` is consulted - overwriting the
primary lookup - exactly when the regular-season table (after its own
fallback) was absent. -/
def rrPostTable (d : Doc) : Option Table :=
  match rrRegTable d with
  | none => findTable d "receiving_and_rushing_post"
  | some _ => findTable d "rushing_and_receiving_post"

/-- Model of `parse_player_stats_page` (source lines 110-1227).  The
function receives the `player_page` argument, but line 131 rebuilds the
soup from the free variable `response` - a module-level global set by the
main loop - so the biometric block is recomputed from, and every table
lookup is performed on, `response` rather than the argument.  Both
documents therefore appear as parameters here.  Exceptions escaping the
Python function are `Except.error`. -/
def parse_player_stats_page (player_page response : Doc) :
    Except String (List (String × Value)) := do
  let meta1 ← getMeta player_page
  let _hw1 := findHeightWeight (normWs meta1)
  let meta2 ← getMeta response
  let hw := findHeightWeight (normWs meta2)
  let gReg ← gamesPlayedCat (findTable response "games_played")
  let gPost ← gamesPlayedCat (findTable response "games_played_playoffs")
  let passingReg := findTable response "passing"
  let pgReg ← catGames passingReg
  let passRegV ← catStats passingReg (passingSpecs "_reg")
  let passingPost := findTable response "passing_post"
  let pgPost ← catGames passingPost
  let passPostV ← catStats passingPost (passingSpecs "_post")
  let rrReg := rrRegTable response
  let rgReg ← catGames rrReg
  let rrRegV ← catStats rrReg (rushRecSpecs "_reg")
  let rrPost := rrPostTable response
  let rgPost ← catGames rrPost
  let rrPostV ← catStats rrPost (rushRecSpecs "_post")
  let defReg := findTable response "defense"
  let dgReg ← catGames defReg
  let defRegV ← catStats defReg (defenseSpecs "_reg")
  let defPost := findTable response "defense_post"
  let dgPost ← catGames defPost
  let defPostV ← catStats defPost (defenseSpecs "_post")
  let retReg := findTable response "returns"
  let tgReg ← catGames retReg
  let retRegV ← catStats retReg (returnsSpecs "_reg")
  let retPost := findTable response "returns_post"
  let tgPost ← catGames retPost
  let retPostV ← catStats retPost (returnsSpecs "_post")
  pure
    ([("height", heightValue hw),
      ("weight", weightValue hw),
      ("games_reg", Value.vInt (maxList5 gReg.1 pgReg.1 rgReg.1 dgReg.1 tgReg.1)),
      ("games_started_reg", Value.vInt (maxList5 gReg.2 pgReg.2 rgReg.2 dgReg.2 tgReg.2)),
      ("games_post", Value.vInt (maxList5 gPost.1 pgPost.1 rgPost.1 dgPost.1 tgPost.1)),
      ("games_started_post", Value.vInt (maxList5 gPost.2 pgPost.2 rgPost.2 dgPost.2 tgPost.2))]
      ++ passRegV ++ passPostV ++ rrRegV ++ rrPostV
      ++ defRegV ++ defPostV ++ retRegV ++ retPostV)

/-- The entry point as the main loop calls it: the global `response` holds
the very document being parsed, so both parameters receive it. -/
def extract_player_record (d : Doc) : Except String (List (String × Value)) :=
  parse_player_stats_page d d

/-- The fixed column names of the output record, in the order of the
`player_stats` dict literal (source lines 1060-1225). -/
def statKeys : List String :=
  ["height", "weight", "games_reg", "games_started_reg", "games_post", "games_started_post"]
    ++ (passingSpecs "_reg").map FieldSpec.col
    ++ (passingSpecs "_post").map FieldSpec.col
    ++ (rushRecSpecs "_reg").map FieldSpec.col
    ++ (rushRecSpecs "_post").map FieldSpec.col
    ++ (defenseSpecs "_reg").map FieldSpec.col
    ++ (defenseSpecs "_post").map FieldSpec.col
    ++ (returnsSpecs "_reg").map FieldSpec.col
    ++ (returnsSpecs "_post").map FieldSpec.col

theorem except_bind_ok {α β : Type} {x : Except String α} {f : α → Except String β} {b : β} :
    (x >>= f) = Except.ok b ↔ ∃ a, x = Except.ok a ∧ f a = Except.ok b := by
  cases x <;> simp [Bind.bind, Except.bind]

theorem except_pure_ok {α : Type} {a b : α} :
    (pure a : Except String α) = Except.ok b ↔ a = b := by
  simp [pure, Except.pure]

theorem catFields_keys (t : Table) (fs : List FieldSpec) (vs : List (String × Value))
    (h : catFields t fs = Except.ok vs) : vs.map Prod.fst = fs.map FieldSpec.col := by
  induction fs generalizing vs with
  | nil =>
      simp [catFields] at h
      subst h; rfl
  | cons f fs ih =>
      simp only [catFields, except_bind_ok, except_pure_ok] at h
      obtain ⟨v, hv, rest, hrest, hvs⟩ := h
      subst hvs
      simp [ih rest hrest]

theorem catStats_keys (ot : Option Table) (fs : List FieldSpec) (vs : List (String × Value))
    (h : catStats ot fs = Except.ok vs) : vs.map Prod.fst = fs.map FieldSpec.col := by
  cases ot with
  | none =>
      simp [catStats] at h
      subst h
      simp [List.map_map]
  | some t => exact catFields_keys t fs vs h

theorem catFields_ok_field (t : Table) (fs : List FieldSpec) (vs : List (String × Value))
    (h : catFields t fs = Except.ok vs) : ∀ f ∈ fs, ∃ v, extractField t f = Except.ok v := by
  induction fs generalizing vs with
  | nil => intro f hf; cases hf
  | cons g fs ih =>
      simp only [catFields, except_bind_ok, except_pure_ok] at h
      obtain ⟨v, hv, rest, hrest, _⟩ := h
      intro f hf
      rcases List.mem_cons.1 hf with hfg | hfm
      · exact hfg ▸ ⟨v, hv⟩
      · exact ih rest hrest f hfm

theorem catGames_ok (t : Table) (p : Int × Int) (h : catGames (some t) = Except.ok p) :
    (∃ n, intStat t "games" = Except.ok n) ∧ (∃ n, intStat t "games_started" = Except.ok n) := by
  simp only [catGames, except_bind_ok, except_pure_ok] at h
  obtain ⟨g, hg, gs, hgs, _⟩ := h
  exact ⟨⟨g, hg⟩, ⟨gs, hgs⟩⟩

theorem gamesPlayedCat_ok (t : Table) (p : Int × Int) (h : gamesPlayedCat (some t) = Except.ok p) :
    (∃ n, intStat t "g" = Except.ok n) ∧ (∃ n, gsStat t = Except.ok n) := by
  simp only [gamesPlayedCat, except_bind_ok, except_pure_ok] at h
  obtain ⟨g, hg, gs, hgs, _⟩ := h
  exact ⟨⟨g, hg⟩, ⟨gs, hgs⟩⟩

theorem coerce_tInt_error (s : String) (e : String)
    (h : coerceCell FTy.tInt s = Except.error e) : parsePyInt s = none := by
  cases hp : parsePyInt s <;> simp [coerceCell, hp] at h
  rfl

theorem lookup_append_right {β : Type} (k : String) (l1 l2 : List (String × β))
    (h : l1.all (fun p => !(k == p.1)) = true) :
    List.lookup k (l1 ++ l2) = List.lookup k l2 := by
  induction l1 with
  | nil => rfl
  | cons a l1 ih =>
      simp only [List.all_cons, Bool.and_eq_true, Bool.not_eq_true'] at h
      simp [List.lookup, h.1, ih h.2]

theorem all_fst_not_key {β : Type} (l : List (String × β)) (ks : List String) (k : String)
    (hks : l.map Prod.fst = ks) (h : ks.all (fun s => !(k == s)) = true) :
    l.all (fun p => !(k == p.1)) = true := by
  induction l generalizing ks with
  | nil => rfl
  | cons a l ih =>
      cases ks with
      | nil => cases hks
      | cons s ks =>
          simp only [List.map_cons, List.cons.injEq] at hks
          simp only [List.all_cons, Bool.and_eq_true] at h ⊢
          exact ⟨hks.1 ▸ h.1, ih ks hks.2 h.2⟩

/-- Decomposition of a successful `extract_player_record` run into its
component extractions and the literal shape of the returned record. -/
theorem extract_ok_parts (d : Doc) (rec : List (String × Value))
    (h : extract_player_record d = Except.ok rec) :
    ∃ m gReg gPost pgReg pV pgPost pV2 rgReg rV rgPost rV2 dgReg dV dgPost dV2 tgReg tV tgPost tV2,
      getMeta d = Except.ok m ∧
      gamesPlayedCat (findTable d "games_played") = Except.ok gReg ∧
      gamesPlayedCat (findTable d "games_played_playoffs") = Except.ok gPost ∧
      catGames (findTable d "passing") = Except.ok pgReg ∧
      catStats (findTable d "passing") (passingSpecs "_reg") = Except.ok pV ∧
      catGames (findTable d "passing_post") = Except.ok pgPost ∧
      catStats (findTable d "passing_post") (passingSpecs "_post") = Except.ok pV2 ∧
      catGames (rrRegTable d) = Except.ok rgReg ∧
      catStats (rrRegTable d) (rushRecSpecs "_reg") = Except.ok rV ∧
      catGames (rrPostTable d) = Except.ok rgPost ∧
      catStats (rrPostTable d) (rushRecSpecs "_post") = Except.ok rV2 ∧
      catGames (findTable d "defense") = Except.ok dgReg ∧
      catStats (findTable d "defense") (defenseSpecs "_reg") = Except.ok dV ∧
      catGames (findTable d "defense_post") = Except.ok dgPost ∧
      catStats (findTable d "defense_post") (defenseSpecs "_post") = Except.ok dV2 ∧
      catGames (findTable d "returns") = Except.ok tgReg ∧
      catStats (findTable d "returns") (returnsSpecs "_reg") = Except.ok tV ∧
      catGames (findTable d "returns_post") = Except.ok tgPost ∧
      catStats (findTable d "returns_post") (returnsSpecs "_post") = Except.ok tV2 ∧
      rec = [("height", heightValue (findHeightWeight (normWs m))),
             ("weight", weightValue (findHeightWeight (normWs m))),
             ("games_reg", Value.vInt (maxList5 gReg.1 pgReg.1 rgReg.1 dgReg.1 tgReg.1)),
             ("games_started_reg", Value.vInt (maxList5 gReg.2 pgReg.2 rgReg.2 dgReg.2 tgReg.2)),
             ("games_post", Value.vInt (maxList5 gPost.1 pgPost.1 rgPost.1 dgPost.1 tgPost.1)),
             ("games_started_post", Value.vInt (maxList5 gPost.2 pgPost.2 rgPost.2 dgPost.2 tgPost.2))]
            ++ pV ++ pV2 ++ rV ++ rV2 ++ dV ++ dV2 ++ tV ++ tV2 := by
  unfold extract_player_record parse_player_stats_page at h
  simp only [except_bind_ok, except_pure_ok] at h
  obtain ⟨m1, hm1, m2, hm2, gReg, hgReg, gPost, hgPost, pgReg, hpgReg, pV, hpV,
    pgPost, hpgPost, pV2, hpV2, rgReg, hrgReg, rV, hrV, rgPost, hrgPost, rV2, hrV2,
    dgReg, hdgReg, dV, hdV, dgPost, hdgPost, dV2, hdV2, tgReg, htgReg, tV, htV,
    tgPost, htgPost, tV2, htV2, hrec⟩ := h
  exact ⟨m2, gReg, gPost, pgReg, pV, pgPost, pV2, rgReg, rV, rgPost, rV2, dgReg, dV,
    dgPost, dV2, tgReg, tV, tgPost, tV2, hm2, hgReg, hgPost, hpgReg, hpV, hpgPost, hpV2,
    hrgReg, hrV, hrgPost, hrV2, hdgReg, hdV, hdgPost, hdV2, htgReg, htV, htgPost, htV2,
    hrec.symm⟩

/-- A document with the metadata block present and no statistics tables. -/
def docNoTables : Doc := ⟨some "", []⟩

/-- C5: whenever `parse_player_stats_page` returns a record, that record has
exactly the declared column names, in the fixed dict-literal order, for
every document alike - every declared field is present whether or not its
category table was. -/
theorem record_keys_fixed (d : Doc) (rec : List (String × Value))
    (h : extract_player_record d = Except.ok rec) : rec.map Prod.fst = statKeys := by
  obtain ⟨m, gReg, gPost, pgReg, pV, pgPost, pV2, rgReg, rV, rgPost, rV2, dgReg, dV,
    dgPost, dV2, tgReg, tV, tgPost, tV2, _, _, _, _, hpV, _, hpV2, _, hrV, _, hrV2,
    _, hdV, _, hdV2, _, htV, _, htV2, hrec⟩ := extract_ok_parts d rec h
  subst hrec
  simp only [statKeys, List.map_append, List.map_cons]
  rw [catStats_keys _ _ _ hpV, catStats_keys _ _ _ hpV2, catStats_keys _ _ _ hrV,
    catStats_keys _ _ _ hrV2, catStats_keys _ _ _ hdV, catStats_keys _ _ _ hdV2,
    catStats_keys _ _ _ htV, catStats_keys _ _ _ htV2]
  simp

/-- C5 witness: the schema theorem applied to a concrete document. -/
theorem record_keys_fixed_witness :
    ∃ rec, extract_player_record docNoTables = Except.ok rec ∧ rec.map Prod.fst = statKeys :=
  ⟨_, rfl, record_keys_fixed docNoTables _ rfl⟩

/-- Per-season-type reconciliation property: the games and games-started
entries of the record equal the maximum of the five per-category values
(games-played table, passing, rushing/receiving, defense, returns), each
field independently, with absent categories contributing their `(0, 0)`
defaults through `gamesPlayedCat`/`catGames`. -/
def gamesMaxSpec (d : Doc) (rec : List (String × Value)) : Prop :=
  ∃ gp ps rr df rt gp2 ps2 rr2 df2 rt2 : Int × Int,
    gamesPlayedCat (findTable d "games_played") = Except.ok gp ∧
    catGames (findTable d "passing") = Except.ok ps ∧
    catGames (rrRegTable d) = Except.ok rr ∧
    catGames (findTable d "defense") = Except.ok df ∧
    catGames (findTable d "returns") = Except.ok rt ∧
    rec.lookup "games_reg" = some (Value.vInt (maxList5 gp.1 ps.1 rr.1 df.1 rt.1)) ∧
    rec.lookup "games_started_reg" = some (Value.vInt (maxList5 gp.2 ps.2 rr.2 df.2 rt.2)) ∧
    gamesPlayedCat (findTable d "games_played_playoffs") = Except.ok gp2 ∧
    catGames (findTable d "passing_post") = Except.ok ps2 ∧
    catGames (rrPostTable d) = Except.ok rr2 ∧
    catGames (findTable d "defense_post") = Except.ok df2 ∧
    catGames (findTable d "returns_post") = Except.ok rt2 ∧
    rec.lookup "games_post" = some (Value.vInt (maxList5 gp2.1 ps2.1 rr2.1 df2.1 rt2.1)) ∧
    rec.lookup "games_started_post" = some (Value.vInt (maxList5 gp2.2 ps2.2 rr2.2 df2.2 rt2.2))

/-- C4: for each season type the final games and games-started entries are
the maxima of the five per-category values, computed independently of each
other; absent categories contribute 0 through their extractors' defaults
(so all-absent yields `(0, 0)`), and the reconciliation of the sample
signal list 7, 0, 16, 0, 0 yields 16. -/
theorem games_reconciled_as_max (d : Doc) (rec : List (String × Value))
    (h : extract_player_record d = Except.ok rec) :
    gamesMaxSpec d rec ∧ maxList5 7 0 16 0 0 = 16 ∧ maxList5 0 0 0 0 0 = 0 := by
  obtain ⟨m, gReg, gPost, pgReg, pV, pgPost, pV2, rgReg, rV, rgPost, rV2, dgReg, dV,
    dgPost, dV2, tgReg, tV, tgPost, tV2, _, hgReg, hgPost, hpgReg, _, hpgPost, _,
    hrgReg, _, hrgPost, _, hdgReg, _, hdgPost, _, htgReg, _, htgPost, _, hrec⟩ :=
    extract_ok_parts d rec h
  subst hrec
  refine ⟨⟨gReg, pgReg, rgReg, dgReg, tgReg, gPost, pgPost, rgPost, dgPost, tgPost,
    hgReg, hpgReg, hrgReg, hdgReg, htgReg, ?_, ?_, hgPost, hpgPost, hrgPost, hdgPost,
    htgPost, ?_, ?_⟩, by decide, by decide⟩ <;> simp [List.lookup]

/-- A document carrying a games-played table reporting 7 games and a
rushing-and-receiving table reporting 16, matching the spec's sample
signal list. -/
def docGamesSignals : Doc :=
  ⟨some "", [⟨"games_played", [⟨"g", "7"⟩]⟩, ⟨"rushing_and_receiving", [⟨"games", "16"⟩]⟩]⟩

/-- C4 witness: the reconciliation theorem applied to a concrete document
whose five regular-season games signals are 7, 0, 16, 0, 0. -/
theorem games_reconciled_as_max_witness :
    ∃ rec, extract_player_record docGamesSignals = Except.ok rec ∧
      gamesMaxSpec docGamesSignals rec ∧ maxList5 7 0 16 0 0 = 16 ∧ maxList5 0 0 0 0 0 = 0 ∧
      rec.lookup "games_reg" = some (Value.vInt 16) :=
  ⟨_, rfl, (games_reconciled_as_max docGamesSignals _ rfl).1,
    (games_reconciled_as_max docGamesSignals _ rfl).2.1,
    (games_reconciled_as_max docGamesSignals _ rfl).2.2, rfl⟩

theorem biometrics_of_ok (d : Doc) (m : String) (rec : List (String × Value))
    (hd : d.meta = some m) (h : extract_player_record d = Except.ok rec) :
    rec.lookup "height" = some (heightValue (findHeightWeight (normWs m))) ∧
    rec.lookup "weight" = some (weightValue (findHeightWeight (normWs m))) := by
  obtain ⟨m2, gReg, gPost, pgReg, pV, pgPost, pV2, rgReg, rV, rgPost, rV2, dgReg, dV,
    dgPost, dV2, tgReg, tV, tgPost, tV2, hm2, _, _, _, _, _, _, _, _, _, _, _, _, _,
    _, _, _, _, _, hrec⟩ := extract_ok_parts d rec h
  have hm : m2 = m := by simp [getMeta, hd] at hm2; exact hm2.symm
  subst hrec hm
  constructor <;> simp [List.lookup]

/-- C6: a document whose metadata container is missing makes
`parse_player_stats_page` raise rather than return a record, whereas a
document whose metadata text lacks the height-and-weight pattern parses
without failing on that account, and any record returned for it carries the
unset sentinel `None` for both height and weight. -/
theorem meta_fatal_pattern_nonfatal :
    (∀ d : Doc, d.meta = none → ∃ e, extract_player_record d = Except.error e) ∧
    (∀ m : String, findHeightWeight (normWs m) = none →
      ∃ rec, extract_player_record ⟨some m, []⟩ = Except.ok rec ∧
        rec.lookup "height" = some Value.vNone ∧ rec.lookup "weight" = some Value.vNone) ∧
    (∀ (d : Doc) (m : String) (rec : List (String × Value)),
      d.meta = some m → findHeightWeight (normWs m) = none →
      extract_player_record d = Except.ok rec →
      rec.lookup "height" = some Value.vNone ∧ rec.lookup "weight" = some Value.vNone) := by
  refine ⟨?_, ?_, ?_⟩
  · rintro ⟨mo, ts⟩ hd
    simp only at hd
    subst hd
    exact ⟨_, rfl⟩
  · intro m hm
    refine ⟨_, rfl, ?_, ?_⟩
    · rw [(biometrics_of_ok ⟨some m, []⟩ m _ rfl rfl).1, hm]; rfl
    · rw [(biometrics_of_ok ⟨some m, []⟩ m _ rfl rfl).2, hm]; rfl
  · intro d m rec hd hm h
    have hb := biometrics_of_ok d m rec hd h
    constructor
    · rw [hb.1, hm]; rfl
    · rw [hb.2, hm]; rfl

/-- C6 witness: the boundary theorem applied to a metadata-free document and
to a metadata text without the height-and-weight pattern. -/
theorem meta_fatal_pattern_nonfatal_witness :
    (∃ e, extract_player_record ⟨none, []⟩ = Except.error e) ∧
    (∃ rec, extract_player_record ⟨some "John Doe QB", []⟩ = Except.ok rec ∧
      rec.lookup "height" = some Value.vNone ∧ rec.lookup "weight" = some Value.vNone) :=
  ⟨meta_fatal_pattern_nonfatal.1 ⟨none, []⟩ rfl,
   meta_fatal_pattern_nonfatal.2.1 "John Doe QB" rfl⟩

/-- A document whose passing table has a present `pass_cmp` cell with empty
text. -/
def docEmptyPassCmp : Doc := ⟨some "", [⟨"passing", [⟨"pass_cmp", ""⟩]⟩]⟩

/-- C1 counterexample: a present integer cell with empty text does not
yield the declared default - the coercion raises and the whole extraction
fails.  The empty-text default exists only for the `gs` cells of the
games-played tables. -/
theorem empty_numeric_cell_raises :
    lookupCell ⟨"passing", [⟨"pass_cmp", ""⟩]⟩ "pass_cmp" = some ⟨"pass_cmp", ""⟩ ∧
    (∃ e, extract_player_record docEmptyPassCmp = Except.error e) :=
  ⟨rfl, _, rfl⟩

/-- C1 amended: an empty cell text yields the declared default only in the
`gs` blocks of the games-played tables; a `g` cell or any other numeric
field with present-but-empty text raises a coercion failure. -/
theorem empty_text_defaults_only_for_gs :
    (∀ (t : Table) (c : Cell), lookupCell t "gs" = some c → c.text = "" →
      gsStat t = Except.ok 0) ∧
    (∀ (t : Table) (c : Cell), lookupCell t "g" = some c → c.text = "" →
      ∃ e, intStat t "g" = Except.error e) ∧
    (∀ (t : Table) (f : FieldSpec) (c : Cell), f.ty ≠ FTy.tStr →
      lookupCell t f.stat = some c → c.text = "" →
      ∃ e, extractField t f = Except.error e) := by
  refine ⟨?_, ?_, ?_⟩
  · intro t c hc htext
    simp [gsStat, hc, htext]
  · intro t c hc htext
    exact ⟨_, by simp [intStat, hc, htext]; rfl⟩
  · intro t f c hty hc htext
    obtain ⟨st, co, ty⟩ := f
    cases ty with
    | tInt => exact ⟨_, by simp [extractField, hc, htext, coerceCell]; rfl⟩
    | tDec => exact ⟨_, by simp [extractField, hc, htext, coerceCell]; rfl⟩
    | tStr => exact absurd rfl hty

/-- C1 amended witness: the amended theorem applied to concrete footer
cells with empty text. -/
theorem empty_text_defaults_only_for_gs_witness :
    gsStat ⟨"games_played", [⟨"gs", ""⟩]⟩ = Except.ok 0 ∧
    (∃ e, intStat ⟨"games_played", [⟨"g", ""⟩]⟩ "g" = Except.error e) ∧
    (∃ e, extractField ⟨"passing", [⟨"pass_cmp", ""⟩]⟩ ⟨"pass_cmp", "pass_cmp_reg", FTy.tInt⟩ =
      Except.error e) :=
  ⟨empty_text_defaults_only_for_gs.1 ⟨"games_played", [⟨"gs", ""⟩]⟩ ⟨"gs", ""⟩ rfl rfl,
   empty_text_defaults_only_for_gs.2.1 ⟨"games_played", [⟨"g", ""⟩]⟩ ⟨"g", ""⟩ rfl rfl,
   empty_text_defaults_only_for_gs.2.2 ⟨"passing", [⟨"pass_cmp", ""⟩]⟩
     ⟨"pass_cmp", "pass_cmp_reg", FTy.tInt⟩ ⟨"pass_cmp", ""⟩ (by decide) rfl rfl⟩

/-- The alternate-id postseason rushing-and-receiving table of the C2
failing document, reporting 7 rushing attempts. -/
def rrAltPost : Table := ⟨"receiving_and_rushing_post", [⟨"rush_att", "7"⟩]⟩

/-- A document with the regular-season primary table present, the
postseason primary id absent, and the postseason alternate id present. -/
def docRRAltPost : Doc := ⟨some "", [⟨"rushing_and_receiving", []⟩, rrAltPost]⟩

/-- A document carrying only the postseason primary table. -/
def docRRPrimaryPost : Doc := ⟨some "", [⟨"rushing_and_receiving_post", [⟨"rush_att", "7"⟩]⟩]⟩

/-- C2: the postseason fallback condition tests the regular-season lookup
(source line 620).  With the regular table present, an absent primary
postseason id and a present alternate postseason id, the code concludes
absence and emits the defaults instead of reading the alternate table; and
with the regular table absent, a present primary postseason table is
overwritten by the (empty) alternate lookup and likewise ignored. -/
theorem rr_post_fallback_tests_reg_table :
    findTable docRRAltPost "receiving_and_rushing_post" = some rrAltPost ∧
    rrPostTable docRRAltPost = none ∧
    (extract_player_record docRRAltPost).map (List.lookup "rush_att_post") =
      Except.ok (some (Value.vInt 0)) ∧
    (findTable docRRPrimaryPost "rushing_and_receiving_post").isSome = true ∧
    rrPostTable docRRPrimaryPost = none ∧
    (extract_player_record docRRPrimaryPost).map (List.lookup "rush_att_post") =
      Except.ok (some (Value.vInt 0)) :=
  ⟨rfl, rfl, rfl, rfl, rfl, rfl⟩

/-- A document with the metadata block and a games-played table reporting 5
games, used as the value of the global `response`. -/
def respFiveGames : Doc := ⟨some "", [⟨"games_played", [⟨"g", "5"⟩]⟩]⟩

/-- C3: `parse_player_stats_page` is not a function of its document
argument alone - line 131 of the source rebuilds the soup from the global
`response`, so the same `player_page` argument yields different records
under different globals. -/
theorem parse_depends_on_global_response :
    (parse_player_stats_page docNoTables respFiveGames).map (List.lookup "games_reg") =
      Except.ok (some (Value.vInt 5)) ∧
    (parse_player_stats_page docNoTables docNoTables).map (List.lookup "games_reg") =
      Except.ok (some (Value.vInt 0)) ∧
    some (Value.vInt 5) ≠ some (Value.vInt 0) :=
  ⟨rfl, rfl, by decide⟩

theorem catFields_cons (t : Table) (f : FieldSpec) (fs : List FieldSpec)
    (vs : List (String × Value)) (h : catFields t (f :: fs) = Except.ok vs) :
    ∃ v rest, extractField t f = Except.ok v ∧ catFields t fs = Except.ok rest ∧
      vs = (f.col, v) :: rest := by
  simp only [catFields, except_bind_ok, except_pure_ok] at h
  obtain ⟨v, hv, rest, hrest, hvs⟩ := h
  exact ⟨v, rest, hv, hrest, hvs.symm⟩

/-- C8 counterexample: with the passing tables absent, the qb-record fields
of the returned record hold the Python integer 0 - the same numeric default
as every other field - not an empty or sentinel text value. -/
theorem qb_record_defaults_to_int_zero :
    (extract_player_record docNoTables).map (List.lookup "qb_record_reg") =
      Except.ok (some (Value.vInt 0)) ∧
    (extract_player_record docNoTables).map (List.lookup "qb_record_post") =
      Except.ok (some (Value.vInt 0)) ∧
    Value.vInt 0 ≠ Value.vStr "" :=
  ⟨rfl, rfl, by decide⟩

/-- C8 amended: when the passing table of a season type (or its `qb_rec`
cell) is absent, the qb-record field of that season type equals the Python
integer 0 that the source initializes it to - the numeric default shared
with every other field - rather than an empty or sentinel text. -/
theorem qb_record_absent_defaults (d : Doc) (rec : List (String × Value))
    (h : extract_player_record d = Except.ok rec) :
    (findTable d "passing" = none → rec.lookup "qb_record_reg" = some (Value.vInt 0)) ∧
    (findTable d "passing_post" = none → rec.lookup "qb_record_post" = some (Value.vInt 0)) ∧
    (∀ t, findTable d "passing" = some t → lookupCell t "qb_rec" = none →
      rec.lookup "qb_record_reg" = some (Value.vInt 0)) ∧
    (∀ t, findTable d "passing_post" = some t → lookupCell t "qb_rec" = none →
      rec.lookup "qb_record_post" = some (Value.vInt 0)) := by
  obtain ⟨m, gReg, gPost, pgReg, pV, pgPost, pV2, rgReg, rV, rgPost, rV2, dgReg, dV,
    dgPost, dV2, tgReg, tV, tgPost, tV2, _, _, _, _, hpV, _, hpV2, _, _, _, _, _, _,
    _, _, _, _, _, _, hrec⟩ := extract_ok_parts d rec h
  have hkeysReg : pV.map Prod.fst = (passingSpecs "_reg").map FieldSpec.col :=
    catStats_keys _ _ _ hpV
  subst hrec
  refine ⟨?_, ?_, ?_, ?_⟩
  · intro hnone
    rw [hnone] at hpV
    simp only [catStats] at hpV
    obtain rfl : _ = pV := Except.ok.inj hpV
    simp [passingSpecs, List.lookup]
  · intro hnone
    rw [hnone] at hpV2
    simp only [catStats] at hpV2
    obtain rfl : _ = pV2 := Except.ok.inj hpV2
    simp only [List.append_assoc, List.cons_append, List.nil_append]
    simp only [List.lookup]
    rw [lookup_append_right _ _ _
      (all_fst_not_key pV _ _ hkeysReg (by decide))]
    simp [passingSpecs, List.lookup]
  · intro t hsome hcell
    rw [hsome] at hpV
    simp only [catStats, passingSpecs] at hpV
    obtain ⟨v, rest, hv, _, hvs⟩ := catFields_cons _ _ _ _ hpV
    simp only [extractField, hcell] at hv
    obtain rfl : Value.vInt 0 = v := Except.ok.inj hv
    subst hvs
    simp [List.lookup]
  · intro t hsome hcell
    rw [hsome] at hpV2
    simp only [catStats, passingSpecs] at hpV2
    obtain ⟨v, rest, hv, _, hvs⟩ := catFields_cons _ _ _ _ hpV2
    simp only [extractField, hcell] at hv
    obtain rfl : Value.vInt 0 = v := Except.ok.inj hv
    subst hvs
    simp only [List.append_assoc, List.cons_append, List.nil_append]
    simp only [List.lookup]
    rw [lookup_append_right _ _ _
      (all_fst_not_key pV _ _ hkeysReg (by decide))]
    simp [List.lookup]

/-- A document whose passing tables are present but carry no cells. -/
def docPassNoQb : Doc := ⟨some "", [⟨"passing", []⟩, ⟨"passing_post", []⟩]⟩

/-- C8 amended witness: the amended theorem applied to a document without
passing tables and to one whose passing tables lack the `qb_rec` cell. -/
theorem qb_record_absent_defaults_witness :
    (∃ rec, extract_player_record docNoTables = Except.ok rec ∧
      rec.lookup "qb_record_reg" = some (Value.vInt 0) ∧
      rec.lookup "qb_record_post" = some (Value.vInt 0)) ∧
    (∃ rec, extract_player_record docPassNoQb = Except.ok rec ∧
      rec.lookup "qb_record_reg" = some (Value.vInt 0) ∧
      rec.lookup "qb_record_post" = some (Value.vInt 0)) :=
  ⟨⟨_, rfl, (qb_record_absent_defaults docNoTables _ rfl).1 rfl,
     (qb_record_absent_defaults docNoTables _ rfl).2.1 rfl⟩,
   ⟨_, rfl, (qb_record_absent_defaults docPassNoQb _ rfl).2.2.1 ⟨"passing", []⟩ rfl rfl,
     (qb_record_absent_defaults docPassNoQb _ rfl).2.2.2 ⟨"passing_post", []⟩ rfl rfl⟩⟩

/-- The two games-counter blocks shared by the statistics category tables
(keys `games` and `games_started`, both integer-coerced). -/
def gamesSpecs : List FieldSpec :=
  [⟨"games", "games", FTy.tInt⟩, ⟨"games_started", "games_started", FTy.tInt⟩]

/-- The two blocks of the games-played tables (keys `g` and `gs`, both
integer-coerced). -/
def gamesPlayedSpecs : List FieldSpec :=
  [⟨"g", "g", FTy.tInt⟩, ⟨"gs", "gs", FTy.tInt⟩]

/-- The table named by the lookup is present and one of the declared fields
finds a cell whose text is nonempty yet fails its declared coercion. -/
def badNumCellIn (ot : Option Table) (fs : List FieldSpec) : Prop :=
  ∃ t, ot = some t ∧ ∃ f ∈ fs, ∃ c, lookupCell t f.stat = some c ∧ c.text ≠ "" ∧
    ∃ e, coerceCell f.ty c.text = Except.error e

/-- Some cell the extraction engine reads carries present, nonempty text
that fails its declared numeric coercion. -/
def hasBadNumericCell (d : Doc) : Prop :=
  badNumCellIn (findTable d "games_played") gamesPlayedSpecs ∨
  badNumCellIn (findTable d "games_played_playoffs") gamesPlayedSpecs ∨
  badNumCellIn (findTable d "passing") (gamesSpecs ++ passingSpecs "_reg") ∨
  badNumCellIn (findTable d "passing_post") (gamesSpecs ++ passingSpecs "_post") ∨
  badNumCellIn (rrRegTable d) (gamesSpecs ++ rushRecSpecs "_reg") ∨
  badNumCellIn (rrPostTable d) (gamesSpecs ++ rushRecSpecs "_post") ∨
  badNumCellIn (findTable d "defense") (gamesSpecs ++ defenseSpecs "_reg") ∨
  badNumCellIn (findTable d "defense_post") (gamesSpecs ++ defenseSpecs "_post") ∨
  badNumCellIn (findTable d "returns") (gamesSpecs ++ returnsSpecs "_reg") ∨
  badNumCellIn (findTable d "returns_post") (gamesSpecs ++ returnsSpecs "_post")

theorem intStat_err_of_bad (t : Table) (k : String) (c : Cell) (e : String)
    (hc : lookupCell t k = some c) (he : coerceCell FTy.tInt c.text = Except.error e) :
    ∀ n, intStat t k ≠ Except.ok n := by
  intro n h
  have hp := coerce_tInt_error _ _ he
  simp [intStat, hc, hp] at h

theorem gamesPlayed_ok_no_bad (ot : Option Table) (p : Int × Int)
    (hg : gamesPlayedCat ot = Except.ok p) : ¬ badNumCellIn ot gamesPlayedSpecs := by
  rintro ⟨t, ht, f, hf, c, hc, hne, e, he⟩
  subst ht
  obtain ⟨⟨n1, h1⟩, ⟨n2, h2⟩⟩ := gamesPlayedCat_ok t p hg
  have hty : f.ty = FTy.tInt := by
    rcases List.mem_cons.1 hf with rfl | hf2
    · rfl
    · rcases List.mem_cons.1 hf2 with rfl | hf3
      · rfl
      · cases hf3
  rw [hty] at he
  rcases List.mem_cons.1 hf with rfl | hf2
  · exact intStat_err_of_bad t "g" c e hc he n1 h1
  rcases List.mem_cons.1 hf2 with rfl | hf3
  · have hp := coerce_tInt_error _ _ he
    simp [gsStat, hc, hne, hp] at h2
  · cases hf3

theorem cat_ok_no_bad (ot : Option Table) (fs : List FieldSpec) (p : Int × Int)
    (vs : List (String × Value)) (hg : catGames ot = Except.ok p)
    (hs : catStats ot fs = Except.ok vs) : ¬ badNumCellIn ot (gamesSpecs ++ fs) := by
  rintro ⟨t, ht, f, hf, c, hc, hne, e, he⟩
  subst ht
  obtain ⟨⟨n1, h1⟩, ⟨n2, h2⟩⟩ := catGames_ok t p hg
  rcases List.mem_append.1 hf with hfg | hfs
  · rcases List.mem_cons.1 hfg with rfl | hfg2
    · exact intStat_err_of_bad t "games" c e hc he n1 h1
    rcases List.mem_cons.1 hfg2 with rfl | hfg3
    · exact intStat_err_of_bad t "games_started" c e hc he n2 h2
    · cases hfg3
  · obtain ⟨v, hv⟩ := catFields_ok_field t fs vs hs f hfs
    simp only [extractField, hc] at hv
    rw [he] at hv
    cases hv

/-- C7: whenever some declared numeric field of a present category table
reads a cell with nonempty text that its coercion rejects, the whole
extraction raises - the error propagates to the caller and the field's
default is never silently substituted. -/
theorem bad_numeric_cell_raises (d : Doc) (hb : hasBadNumericCell d) :
    ∃ e, extract_player_record d = Except.error e := by
  cases hE : extract_player_record d with
  | error e => exact ⟨e, rfl⟩
  | ok rec =>
      exfalso
      obtain ⟨m, gReg, gPost, pgReg, pV, pgPost, pV2, rgReg, rV, rgPost, rV2, dgReg, dV,
        dgPost, dV2, tgReg, tV, tgPost, tV2, _, hgReg, hgPost, hpgReg, hpV, hpgPost, hpV2,
        hrgReg, hrV, hrgPost, hrV2, hdgReg, hdV, hdgPost, hdV2, htgReg, htV, htgPost,
        htV2, _⟩ := extract_ok_parts d rec hE
      rcases hb with h | h | h | h | h | h | h | h | h | h
      · exact gamesPlayed_ok_no_bad _ _ hgReg h
      · exact gamesPlayed_ok_no_bad _ _ hgPost h
      · exact cat_ok_no_bad _ _ _ _ hpgReg hpV h
      · exact cat_ok_no_bad _ _ _ _ hpgPost hpV2 h
      · exact cat_ok_no_bad _ _ _ _ hrgReg hrV h
      · exact cat_ok_no_bad _ _ _ _ hrgPost hrV2 h
      · exact cat_ok_no_bad _ _ _ _ hdgReg hdV h
      · exact cat_ok_no_bad _ _ _ _ hdgPost hdV2 h
      · exact cat_ok_no_bad _ _ _ _ htgReg htV h
      · exact cat_ok_no_bad _ _ _ _ htgPost htV2 h

/-- A document whose passing table carries a `pass_cmp` cell with the
uncoercible text abc. -/
def docBadPassCmp : Doc := ⟨some "", [⟨"passing", [⟨"pass_cmp", "abc"⟩]⟩]⟩

/-- C7 witness: the fatality theorem applied to a concrete document with a
malformed integer cell. -/
theorem bad_numeric_cell_raises_witness :
    hasBadNumericCell docBadPassCmp ∧ ∃ e, extract_player_record docBadPassCmp = Except.error e := by
  have hb : hasBadNumericCell docBadPassCmp := by
    right; right; left
    exact ⟨⟨"passing", [⟨"pass_cmp", "abc"⟩]⟩, rfl, ⟨"pass_cmp", "pass_cmp" ++ "_reg", FTy.tInt⟩,
      by decide, ⟨"pass_cmp", "abc"⟩, rfl, by decide, _, rfl⟩
  exact ⟨hb, bad_numeric_cell_raises docBadPassCmp hb⟩

/-- One roster row, reduced to the fields the resume logic reads: the
stable numeric identifier and the `scraped` flag. -/
structure RosterRow where
  player_id : Nat
  scraped : Bool
deriving DecidableEq

/-- A roster table as stored in a CSV file. -/
def Roster : Type := List RosterRow

/-- The filesystem visible to the script, restricted to roster CSVs: an
association of paths to roster contents. -/
def RosterFS : Type := List (String × Roster)

/-- Source line 21. -/
def PLAYER_LIST_PATH : String := "data/player_list.csv"

/-- Write (overwrite) the roster stored at a path. -/
def fsWrite (fs : RosterFS) (p : String) (r : Roster) : RosterFS :=
  (p, r) :: List.filter (fun q => !(q.1 == p)) fs

/-- Read the roster stored at a path, if any. -/
def fsRead (fs : RosterFS) (p : String) : Option Roster :=
  (List.find? (fun q => q.1 == p) fs).map Prod.snd

/-- Set the `scraped` flag of one player in the in-memory roster (source
line 1259). -/
def setScraped (r : Roster) (i : Nat) : Roster :=
  List.map (fun row => if row.player_id = i then ⟨row.player_id, true⟩ else row) r

/-- The per-player body of the main loop (source lines 1241-1265) on the
success path, where every fetch and parse succeeds: rows whose `scraped`
flag is set are skipped; for each other row the record is produced and
appended to the stats CSV (not modelled), the in-memory flag is set, and
the roster is written to the literal path used on source line 1260 -
`'player_list.csv'`, not `PLAYER_LIST_PATH`.  Returns the final
filesystem together with the identifiers processed, in order. -/
def scrapeLoop : List RosterRow → Roster → RosterFS → Roster × RosterFS × List Nat
  | [], df, fs => (df, fs, [])
  | row :: rest, df, fs =>
      if row.scraped then scrapeLoop rest df fs
      else
        let df1 := setScraped df row.player_id
        let fs1 := fsWrite fs "player_list.csv" df1
        let r := scrapeLoop rest df1 fs1
        (r.1, r.2.1, row.player_id :: r.2.2)

/-- One whole run of the script body: the roster is loaded from
`PLAYER_LIST_PATH` (source line 1239; `none` when the file is absent - the
initial roster-list build is out of scope here) and the loop processes its
rows.  Returns the filesystem after the run and the processed ids. -/
def runScraper (fs : RosterFS) : Option (RosterFS × List Nat) :=
  (fsRead fs PLAYER_LIST_PATH).map (fun df =>
    let r := scrapeLoop df df fs
    (r.2.1, r.2.2))

/-- The starting filesystem of the C9 scenario: one roster file at
`PLAYER_LIST_PATH` holding a single unscraped player. -/
def fsStart : RosterFS := [(PLAYER_LIST_PATH, [⟨1, false⟩])]

/-- C9: the scraped flag is not persisted to the roster store loaded at
startup.  After a successful run the file at `PLAYER_LIST_PATH` still shows
the player unscraped (the updated roster went to the distinct path
`player_list.csv`), and a restart therefore reprocesses the player instead
of skipping it. -/
theorem scraped_flag_written_to_wrong_path :
    PLAYER_LIST_PATH ≠ "player_list.csv" ∧
    (runScraper fsStart).map Prod.snd = some [1] ∧
    (runScraper fsStart).map (fun r => fsRead r.1 PLAYER_LIST_PATH) =
      some (some [⟨1, false⟩]) ∧
    (runScraper fsStart).map (fun r => fsRead r.1 "player_list.csv") =
      some (some [⟨1, true⟩]) ∧
    ((runScraper fsStart).bind (fun r => runScraper r.1)).map Prod.snd = some [1] :=
  ⟨by decide, rfl, rfl, rfl, rfl⟩

/-- An HTTP response: its status code and body. -/
structure HttpResponse where
  status : Nat
  content : String
deriving DecidableEq

/-- The kinds of `requests.exceptions.RequestException` the retrieval can
raise: timeouts, connection failures, exhausted retries surfaced by the
adapter, and the `HTTPError` raised by `raise_for_status`. -/
inductive ReqError where
  | timeout
  | connectionError
  | retriesExhausted
  | httpError (code : Nat)
deriving DecidableEq

/-- Outcome of `session.get` under the retry adapter, supplied as an oracle
for the network: either a response or a raised requests exception. -/
inductive FetchOutcome where
  | success (r : HttpResponse)
  | raised (e : ReqError)
deriving DecidableEq

/-- Model of `response.raise_for_status()`: raises `HTTPError` - a
`RequestException` subclass - for status codes 400-599, and returns
normally otherwise. -/
def raise_for_status (r : HttpResponse) : Except ReqError HttpResponse :=
  if 400 ≤ r.status ∧ r.status < 600 then Except.error (ReqError.httpError r.status) else Except.ok r

/-- Model of `scrape_page` (source lines 26-55): the try block performs the
fetch and `raise_for_status`; the except clause catches every
`requests.exceptions.RequestException` - covering timeouts, connection
errors, exhausted retries and `HTTPError` alike - and returns `None`. -/
def scrape_page (outcome : FetchOutcome) : Option HttpResponse :=
  match outcome with
  | .raised _ => none
  | .success r =>
      match raise_for_status r with
      | .ok r2 => some r2
      | .error _ => none

/-- C10: `scrape_page` never lets a retrieval failure escape - it returns
the response on success and `None` on every requests exception, including
the `HTTPError` of a non-success status, so `None` alone signals failure
to the caller. -/
theorem scrape_page_none_on_failure :
    (∀ e, scrape_page (FetchOutcome.raised e) = none) ∧
    (∀ r : HttpResponse, 400 ≤ r.status → r.status < 600 →
      scrape_page (FetchOutcome.success r) = none) ∧
    (∀ r : HttpResponse, r.status < 400 → scrape_page (FetchOutcome.success r) = some r) ∧
    (∀ (o : FetchOutcome) (r : HttpResponse), scrape_page o = some r →
      o = FetchOutcome.success r) := by
  refine ⟨fun e => rfl, ?_, ?_, ?_⟩
  · intro r h1 h2
    simp [scrape_page, raise_for_status, h1, h2]
  · intro r h
    have hn : ¬(400 ≤ r.status ∧ r.status < 600) := by omega
    simp [scrape_page, raise_for_status, hn]
  · intro o r h
    cases o with
    | raised e => cases h
    | success r2 =>
        simp only [scrape_page] at h
        by_cases hc : 400 ≤ r2.status ∧ r2.status < 600
        · simp [raise_for_status, hc] at h
        · simp [raise_for_status, hc] at h
          rw [h]

/-- C10 witness: the contract applied to a raised timeout, a 404 response
and a 200 response. -/
theorem scrape_page_none_on_failure_witness :
    scrape_page (FetchOutcome.raised ReqError.timeout) = none ∧
    scrape_page (FetchOutcome.success ⟨404, "not found"⟩) = none ∧
    scrape_page (FetchOutcome.success ⟨200, "page"⟩) = some ⟨200, "page"⟩ :=
  ⟨scrape_page_none_on_failure.1 ReqError.timeout,
   scrape_page_none_on_failure.2.1 ⟨404, "not found"⟩ (by decide) (by decide),
   scrape_page_none_on_failure.2.2.1 ⟨200, "page"⟩ (by decide)⟩
